import Mathlib

/-!
# mulle-objc-runtime: universe lifecycle, accessors and object convenience lookups

A shallow embedding of the inline functions and declarations of
`mulle-objc-universe-struct.h` and `mulle_objc_object_convenience.h`, and of the
conditional `#error` checks of the umbrella header `mulle-objc-runtime.h`.

Conventions of the embedding

* a C `unsigned` bitfield of width `n` is a `Fin (2 ^ n)`;
* `uint32_t` values are natural numbers reduced `% 2 ^ 32`, the C `int` results of the
  predicates are integers (`1` / `0`);
* `char *` is an `Option String` (`none` is the null pointer), a possibly-null
  `struct _mulle_objc_universe *` is an `Option _mulle_objc_universe`;
* the atomic pointer `version` is the natural number held by the pointer-width word, read
  with a plain read (one thread's view).
-/

namespace MulleObjc

/-! ## Fixed-width conversions of C -/

/-- The conversion `(uint32_t) x` of an unsigned pointer-width value: reduction modulo `2 ^ 32`. -/
def uint32_of_uintptr (x : Nat) : Nat := x % 4294967296

/-- The conversion `(int32_t) x` of a `uint32_t` value (two's complement, as gcc and clang
define it): values from `2 ^ 31` on wrap to the negative numbers. -/
def int32_of_uint32 (x : Nat) : Int :=
  if x < 2147483648 then (x : Int) else (x : Int) - 4294967296

/-- The conversion of an `int` constant to `unsigned int` (32 bit), which is what a `case`
label undergoes when the controlling expression of the `switch` is a `uint32_t`. -/
def uint32_of_int (i : Int) : Nat := (i % 4294967296).toNat

/-- The conversion `(void *) (intptr_t) v` on a platform with `w`-bit pointers, which is how
a signed lifecycle value is put into the atomic pointer `version`. -/
def pointer_of_int (w : Nat) (v : Int) : Nat := (v % ((2 ^ w : Nat) : Int)).toNat

/-! ## `struct _mulle_objc_universeconfig` -/

/-- The type `int` (32 bit). -/
abbrev CInt : Type := { i : Int // -2147483648 ≤ i ∧ i < 2147483648 }

/-- Config of the universe (`struct _mulle_objc_universeconfig`). -/
structure _mulle_objc_universeconfig where
  forget_strings : Fin 2
  ignore_ivarhash_mismatch : Fin 2
  max_optlevel : Fin 8
  min_optlevel : Fin 8
  no_tagged_pointer : Fin 2
  no_fast_call : Fin 2
  repopulate_caches : Fin 2
  cache_fillrate : CInt
  deriving DecidableEq

/-! ## `struct _mulle_objc_universedebug` -/

/-- The anonymous struct `trace` of `struct _mulle_objc_universedebug`. Its bits
`initialize` and `universe` carry the suffix `_flag` here, both words being reserved. -/
structure _mulle_objc_universedebug_trace where
  method_searches : Fin 4294967296
  category_add : Fin 2
  class_add : Fin 2
  class_cache : Fin 2
  class_free : Fin 2
  dependency : Fin 2
  dump_universe : Fin 2
  fastclass_add : Fin 2
  initialize_flag : Fin 2
  hashstrings : Fin 2
  load_call : Fin 2
  loadinfo : Fin 2
  method_cache : Fin 2
  method_call : Fin 2
  descriptor_add : Fin 2
  protocol_add : Fin 2
  state_bit : Fin 2
  string_add : Fin 2
  super_add : Fin 2
  tagged_pointer : Fin 2
  universe_flag : Fin 2
  deriving DecidableEq

/-- The anonymous struct `warn` of `struct _mulle_objc_universedebug`. -/
structure _mulle_objc_universedebug_warn where
  methodid_type : Fin 2
  protocolclass : Fin 2
  stuck_loadable : Fin 2
  pedantic_methodid_type : Fin 2
  deriving DecidableEq

/-- The anonymous struct `print` of `struct _mulle_objc_universedebug`. -/
structure _mulle_objc_universedebug_print where
  universe_config : Fin 2
  print_origin : Fin 2
  stuck_class_coverage : Fin 2
  stuck_category_coverage : Fin 2
  deriving DecidableEq

/-- Debug flags of the universe (`struct _mulle_objc_universedebug`). -/
structure _mulle_objc_universedebug where
  trace : _mulle_objc_universedebug_trace
  warn : _mulle_objc_universedebug_warn
  print : _mulle_objc_universedebug_print
  deriving DecidableEq

/-! ## The lifecycle sentinels and `struct _mulle_objc_universe` -/

/-- Enum constant `mulle_objc_universe_is_uninitialized = -3`. -/
def mulle_objc_universe_is_uninitialized : Int := -3

/-- Enum constant `mulle_objc_universe_is_initializing = -2`. -/
def mulle_objc_universe_is_initializing : Int := -2

/-- Enum constant `mulle_objc_universe_is_deinitializing = -1`. -/
def mulle_objc_universe_is_deinitializing : Int := -1

/-- The fields of `struct _mulle_objc_universe` that the inline functions of the header
read, together with the two flag structs declared in it. `version` is the value of the
atomic pointer as an unsigned pointer-width number; `universeid` is a
`mulle_objc_universeid_t` (32 bit). The concurrent tables, locks and vectors of the struct
are of types declared in other headers and no function embedded here reads them. -/
structure _mulle_objc_universe where
  version : Nat
  path : Option String
  universeid : Nat
  universename : Option String
  config : _mulle_objc_universeconfig
  debug : _mulle_objc_universedebug
  deriving DecidableEq

/-- `_mulle_objc_universe_get_version`:
`(uint32_t) (uintptr_t) _mulle_atomic_pointer_read( &universe->version)`. -/
def _mulle_objc_universe_get_version (u : _mulle_objc_universe) : Nat :=
  uint32_of_uintptr u.version

/-- `_mulle_objc_universe_get_path`. -/
def _mulle_objc_universe_get_path (u : _mulle_objc_universe) : Option String :=
  u.path

/-- `mulle_objc_universe_get_name`: `"NULL"` for the null universe, else the universename
if it is not null, else `"DEFAULT"`. -/
def mulle_objc_universe_get_name : Option _mulle_objc_universe → Option String
  | none => some "NULL"
  | some u =>
    match u.universename with
    | some name => some name
    | none => some "DEFAULT"

/-- `_mulle_objc_universe_get_universeid`. -/
def _mulle_objc_universe_get_universeid (u : _mulle_objc_universe) : Nat :=
  u.universeid

/-- `_mulle_objc_universe_is_initialized`:
`(int32_t) _mulle_objc_universe_get_version( universe) >= 0`. -/
def _mulle_objc_universe_is_initialized (u : _mulle_objc_universe) : Int :=
  if int32_of_uint32 (_mulle_objc_universe_get_version u) ≥ 0 then 1 else 0

/-- `_mulle_objc_universe_is_uninitialized`:
`(int32_t) _mulle_objc_universe_get_version( universe) == mulle_objc_universe_is_uninitialized`. -/
def _mulle_objc_universe_is_uninitialized (u : _mulle_objc_universe) : Int :=
  if int32_of_uint32 (_mulle_objc_universe_get_version u)
      = mulle_objc_universe_is_uninitialized then 1 else 0

/-- `_mulle_objc_universe_is_transitioning`: a `switch` on the `uint32_t` version whose two
`case` labels, converted to the unsigned type of the controlling expression, return `1`;
every other value falls out of the `switch` to `return( 0)`. -/
def _mulle_objc_universe_is_transitioning (u : _mulle_objc_universe) : Int :=
  let version := _mulle_objc_universe_get_version u
  if version = uint32_of_int mulle_objc_universe_is_initializing then 1
  else if version = uint32_of_int mulle_objc_universe_is_deinitializing then 1
  else 0

/-! ## The lifecycle of the specification -/

/-- The lifecycle states named by the specification:
`Uninitialized → Initializing → Ready(epoch) → Deinitializing`. -/
inductive LifecycleState where
  | Uninitialized
  | Initializing
  | Ready (epoch : Nat)
  | Deinitializing
  deriving DecidableEq, Repr

/-- The version-field encoding stated by the specification: the three sentinels for the
states without an epoch, and the epoch itself for `Ready`. -/
def LifecycleState.encode : LifecycleState → Int
  | .Uninitialized => mulle_objc_universe_is_uninitialized
  | .Initializing => mulle_objc_universe_is_initializing
  | .Ready epoch => (epoch : Int)
  | .Deinitializing => mulle_objc_universe_is_deinitializing

/-- A universe whose `version` holds the encoding of a lifecycle state, written as a
pointer of `w` bits. -/
def _mulle_objc_universe.in_state (u : _mulle_objc_universe) (w : Nat)
    (s : LifecycleState) : _mulle_objc_universe :=
  { u with version := pointer_of_int w s.encode }

/-- All flags cleared. -/
def zero_debug : _mulle_objc_universedebug :=
  { trace := ⟨0, 0, 0, 0, 0, 0, 0, 0, 0, 0, 0, 0, 0, 0, 0, 0, 0, 0, 0, 0, 0⟩
    warn := ⟨0, 0, 0, 0⟩
    print := ⟨0, 0, 0, 0⟩ }

/-- A zero-filled configuration. -/
def zero_config : _mulle_objc_universeconfig :=
  ⟨0, 0, 0, 0, 0, 0, 0, ⟨0, by decide⟩⟩

/-- A zero-filled universe: version `0`, null path, the default universe id and name. -/
def zero_universe : _mulle_objc_universe :=
  { version := 0, path := none, universeid := 0, universename := none
    config := zero_config, debug := zero_debug }

/-! ## Assignments to the fields of `struct _mulle_objc_universeconfig` -/

/-- The assignment `config.max_optlevel = v` of an `unsigned` value `v`: the conversion to
the 3-bit unsigned field keeps `v` modulo `2 ^ 3`. -/
def _mulle_objc_universeconfig.assign_max_optlevel (c : _mulle_objc_universeconfig)
    (v : Nat) : _mulle_objc_universeconfig :=
  { c with max_optlevel := ⟨v % 8, Nat.mod_lt v (by decide)⟩ }

/-- The assignment `config.min_optlevel = v` of an `unsigned` value `v`: the conversion to
the 3-bit unsigned field keeps `v` modulo `2 ^ 3`. -/
def _mulle_objc_universeconfig.assign_min_optlevel (c : _mulle_objc_universeconfig)
    (v : Nat) : _mulle_objc_universeconfig :=
  { c with min_optlevel := ⟨v % 8, Nat.mod_lt v (by decide)⟩ }

/-! ## The construction of a configuration -/

/-- Modelled from the spec: the construction of a universe configuration. The headers at
hand only declare `struct _mulle_objc_universeconfig`; the code of the runtime that fills
and validates it is not among them. The spec gives `cache_fillrate` as an "integer 0–90"
whose range is validated "at construction, not at use", and the declaration comments it
with "default is (0) can be 0-90". So: `options` carries the other options, a requested
fill rate is stored when it lies in 0 to 90, no requested fill rate stores the default 0,
and a requested fill rate outside 0 to 90 gives no configuration. -/
def universeconfig_construct (options : _mulle_objc_universeconfig)
    (cache_fillrate : Option Int) : Option _mulle_objc_universeconfig :=
  match cache_fillrate with
  | none => some { options with cache_fillrate := ⟨0, by decide⟩ }
  | some rate =>
    if h : 0 ≤ rate ∧ rate ≤ 90 then
      some { options with cache_fillrate := ⟨rate, by omega⟩ }
    else none

/-! ## `mulle_objc_object_convenience.h` -/

/-- The functions of `mulle_objc_object.h` and `mulle_objc_class.h` that the convenience
header calls. Neither header is part of the sources at hand, so the functions are
parameters. `σ` is the state of the runtime: the class-of operation reads it, the
class-level lookups may change it (a lookup can fill a method cache). `Obj` is the
`void *obj`, `Cls` the `struct _mulle_objc_class *`, `Imp` the
`mulle_objc_methodimplementation_t`, `Meth` the `struct _mulle_objc_method *`; a method id
is a 32-bit number. -/
structure ClassFunctions (σ Obj Cls Imp Meth : Type) where
  _mulle_objc_object_get_isa : σ → Obj → Cls
  _mulle_objc_class_get_name : σ → Cls → Option String
  _mulle_objc_class_lookup_cached_methodimplementation : σ → Cls → Nat → Imp × σ
  _mulle_objc_class_lookup_methodimplementation : σ → Cls → Nat → Imp × σ
  _mulle_objc_class_lookup_methodimplementation_no_forward : σ → Cls → Nat → Imp × σ
  mulle_objc_class_search_method : σ → Cls → Nat → Meth × σ

section convenience

variable {σ Obj Cls Imp Meth : Type}

/-- `_mulle_objc_object_get_isa_name`. -/
def _mulle_objc_object_get_isa_name (rt : ClassFunctions σ Obj Cls Imp Meth) (st : σ)
    (obj : Obj) : Option String :=
  rt._mulle_objc_class_get_name st (rt._mulle_objc_object_get_isa st obj)

/-- `_mulle_objc_object_lookup_cached_implementation`. -/
def _mulle_objc_object_lookup_cached_implementation (rt : ClassFunctions σ Obj Cls Imp Meth)
    (st : σ) (obj : Obj) (methodid : Nat) : Imp × σ :=
  let cls := rt._mulle_objc_object_get_isa st obj
  rt._mulle_objc_class_lookup_cached_methodimplementation st cls methodid

/-- `_mulle_objc_object_lookup_implementation`. -/
def _mulle_objc_object_lookup_implementation (rt : ClassFunctions σ Obj Cls Imp Meth)
    (st : σ) (obj : Obj) (methodid : Nat) : Imp × σ :=
  let cls := rt._mulle_objc_object_get_isa st obj
  rt._mulle_objc_class_lookup_methodimplementation st cls methodid

/-- `_mulle_objc_object_lookup_implementation_no_forward`. -/
def _mulle_objc_object_lookup_implementation_no_forward
    (rt : ClassFunctions σ Obj Cls Imp Meth) (st : σ) (obj : Obj) (methodid : Nat) :
    Imp × σ :=
  let cls := rt._mulle_objc_object_get_isa st obj
  rt._mulle_objc_class_lookup_methodimplementation_no_forward st cls methodid

/-- `_mulle_objc_object_lookup_method`. -/
def _mulle_objc_object_lookup_method (rt : ClassFunctions σ Obj Cls Imp Meth) (st : σ)
    (obj : Obj) (methodid : Nat) : Meth × σ :=
  let cls := rt._mulle_objc_object_get_isa st obj
  rt.mulle_objc_class_search_method st cls methodid

end convenience

/-- A small runtime to evaluate the convenience functions on: an object is a number whose
class is its residue modulo 8, an implementation is found as `100 * class + methodid`, a
method as `(class, methodid)`, and the state counts the class-level lookups made. -/
def sample_class_functions : ClassFunctions Nat Nat Nat Nat (Nat × Nat) :=
  { _mulle_objc_object_get_isa := fun _ obj => obj % 8
    _mulle_objc_class_get_name := fun _ cls => some (toString cls)
    _mulle_objc_class_lookup_cached_methodimplementation := fun st cls m =>
      (if m < st then 100 * cls + m else 0, st)
    _mulle_objc_class_lookup_methodimplementation := fun st cls m => (100 * cls + m, st + 1)
    _mulle_objc_class_lookup_methodimplementation_no_forward := fun st cls m =>
      (100 * cls + m, st + 1)
    mulle_objc_class_search_method := fun st cls m => ((cls, m), st) }

/-! ## Universes that differ in their debug flags only -/

/-- Two universes agree on every field other than `debug`. -/
def differ_only_in_debug (u₁ u₂ : _mulle_objc_universe) : Prop :=
  u₁.version = u₂.version ∧ u₁.path = u₂.path ∧ u₁.universeid = u₂.universeid ∧
    u₁.universename = u₂.universename ∧ u₁.config = u₂.config

instance (u₁ u₂ : _mulle_objc_universe) : Decidable (differ_only_in_debug u₁ u₂) := by
  unfold differ_only_in_debug
  infer_instance

/-- Debug flags with `trace.method_call`, `trace.universe`, `warn.stuck_loadable` and
`print.print_origin` set and 3 method searches. -/
def sample_debug : _mulle_objc_universedebug :=
  { trace := ⟨3, 0, 0, 0, 0, 0, 0, 0, 0, 0, 0, 0, 0, 1, 0, 0, 0, 0, 0, 0, 1⟩
    warn := ⟨0, 0, 1, 0⟩
    print := ⟨0, 1, 0, 0⟩ }

/-- A universe named `"test"` with id 17 at version 5, all flags cleared. -/
def sample_universe : _mulle_objc_universe :=
  { version := 5, path := some "/usr/lib/libtest.so", universeid := 17
    universename := some "test", config := zero_config, debug := zero_debug }

/-! ## The checks of the umbrella header `mulle-objc-runtime.h` -/

/-- The type `intmax_t` (64 bit), in which the preprocessor evaluates the expression of an
`#if`. -/
abbrev CIntMax : Type :=
  { i : Int // -9223372036854775808 ≤ i ∧ i < 9223372036854775808 }

/-- The low 64 bits of `x` read as an `intmax_t` (two's complement): the value the
preprocessors of gcc and clang give a result that has overflowed. -/
def intmax_of_bits (x : Nat) : CIntMax :=
  ⟨if x % 18446744073709551616 < 9223372036854775808
    then ((x % 18446744073709551616 : Nat) : Int)
    else ((x % 18446744073709551616 : Nat) : Int) - 18446744073709551616,
   by split <;> omega⟩

/-- What the compiler (or the command line) defines when `mulle-objc-runtime.h` is
included. A flag macro is `true` when it is defined. `__MULLE_OBJC_UNIVERSEID__` is `none`
when it is not defined, else the integer constant it expands to, a value of `intmax_t`;
`__MULLE_OBJC_UNIVERSENAME__` is `none` when it is not defined, else what it expands to,
`NULL` (`none`) or a string. -/
structure BuildConfiguration where
  __MULLE_OBJC_TPS__ : Bool
  __MULLE_OBJC_NO_TPS__ : Bool
  __MULLE_OBJC_FCS__ : Bool
  __MULLE_OBJC_NO_FCS__ : Bool
  __MULLE_OBJC_UNIVERSEID__ : Option CIntMax
  __MULLE_OBJC_UNIVERSENAME__ : Option (Option String)
  deriving DecidableEq

/-- The `#error` directives of the configuration checks, in the order of the header. -/
inductive ConfigurationError where
  | tps_undefined
  | tps_and_no_tps
  | fcs_undefined
  | fcs_and_no_fcs
  | tps_outside_default_universe
  deriving DecidableEq, Repr

/-- The text of each `#error` directive, as the header spells it. -/
def ConfigurationError.message : ConfigurationError → String
  | .tps_undefined =>
    "\"Use the mulle-clang compiler to compile mulle-objc code (or define either __MULLE_OBJC_TPS__ or __MULLE_OBJC_NO_TPS__)\""
  | .tps_and_no_tps =>
    "\"Use the mulle-clang compiler to compile mulle-objc code (do not define both __MULLE_OBJC_TPS__ and __MULLE_OBJC_NO_TPS__)\""
  | .fcs_undefined =>
    "\"Use the mulle-clang 7.0.0.0 (or newer) compiler to compile mulle-objc code (or define either __MULLE_OBJC_FCS__ or __MULLE_OBJC_NO_FCS__)\""
  | .fcs_and_no_fcs =>
    "\"Use the mulle-clang 7.0.0.0 (or newer) compiler to compile mulle-objc code (do not define both __MULLE_OBJC_FCS__ and __MULLE_OBJC_NO_FCS__)\""
  | .tps_outside_default_universe =>
    "\"TPS can only be used in the default universe not in \" #__MULLE_OBJC_UNIVERSENAME__"

/-- The value of `__MULLE_OBJC_UNIVERSEID__` after
`#ifndef __MULLE_OBJC_UNIVERSEID__` / `# define __MULLE_OBJC_UNIVERSEID__  0`. -/
def BuildConfiguration.universeid (b : BuildConfiguration) : Int :=
  match b.__MULLE_OBJC_UNIVERSEID__ with
  | some id => id.val
  | none => 0

/-- The value of `__MULLE_OBJC_UNIVERSENAME__` after
`#ifndef __MULLE_OBJC_UNIVERSENAME__` / `# define __MULLE_OBJC_UNIVERSENAME__  NULL`. -/
def BuildConfiguration.universename (b : BuildConfiguration) : Option String :=
  match b.__MULLE_OBJC_UNIVERSENAME__ with
  | some name => name
  | none => none

/-- The five conditionals of the header that guard the configuration, each giving its
`#error` when its condition holds: the four "catch this early" checks on the TPS and FCS
macros, then, after the two defaults, the check
`defined( __MULLE_OBJC_TPS__) && __MULLE_OBJC_UNIVERSEID__ != 0`. -/
def configuration_errors (b : BuildConfiguration) : List ConfigurationError :=
  (if !b.__MULLE_OBJC_TPS__ && !b.__MULLE_OBJC_NO_TPS__ then [.tps_undefined] else []) ++
  (if b.__MULLE_OBJC_TPS__ && b.__MULLE_OBJC_NO_TPS__ then [.tps_and_no_tps] else []) ++
  (if !b.__MULLE_OBJC_FCS__ && !b.__MULLE_OBJC_NO_FCS__ then [.fcs_undefined] else []) ++
  (if b.__MULLE_OBJC_FCS__ && b.__MULLE_OBJC_NO_FCS__ then [.fcs_and_no_fcs] else []) ++
  (if b.__MULLE_OBJC_TPS__ && decide (b.universeid ≠ 0)
    then [.tps_outside_default_universe] else [])

/-- The texts of the `#error` directives that the configuration checks give, in order. -/
def configuration_error_messages (b : BuildConfiguration) : List String :=
  (configuration_errors b).map ConfigurationError.message

/-- The header accepts a build configuration when none of its configuration checks gives
an `#error`. -/
def accepts_configuration (b : BuildConfiguration) : Bool :=
  (configuration_error_messages b).isEmpty

/-- The value of `((major << 20) | (minor << 8) | patch)` in an `#if`: the bits of the
expression, kept to the 64 bits of `intmax_t` (truncating each intermediate result to 64
bits gives the same bits) and read as a signed number. -/
def version_constant (major minor patch : Nat) : CIntMax :=
  intmax_of_bits (((major <<< 20) ||| (minor <<< 8)) ||| patch)

/-- `#if MULLE_ABA_VERSION < ((1 << 20) | (4 << 8) | 0)`: the `#error` given, if any. -/
def mulle_aba_version_check (MULLE_ABA_VERSION : CIntMax) : Option String :=
  if MULLE_ABA_VERSION.val < (version_constant 1 4 0).val
  then some "\"mulle_aba is too old\""
  else none

/-- `#if MULLE_ALLOCATOR_VERSION < ((4 << 20) | (0 << 8) | 0)`: the `#error` given, if
any. -/
def mulle_allocator_version_check (MULLE_ALLOCATOR_VERSION : CIntMax) : Option String :=
  if MULLE_ALLOCATOR_VERSION.val < (version_constant 4 0 0).val
  then some "\"mulle_allocator is too old\""
  else none

/-- `#if MULLE_CONCURRENT_VERSION < ((1 << 20) | (3 << 8) | 0)`: the `#error` given, if
any. -/
def mulle_concurrent_version_check (MULLE_CONCURRENT_VERSION : CIntMax) : Option String :=
  if MULLE_CONCURRENT_VERSION.val < (version_constant 1 3 0).val
  then some "\"mulle_concurrent is too old\""
  else none

/-- `#if MULLE_THREAD_VERSION < ((3 << 20) | (2 << 8) | 0)`: the `#error` given, if any. -/
def mulle_thread_version_check (MULLE_THREAD_VERSION : CIntMax) : Option String :=
  if MULLE_THREAD_VERSION.val < (version_constant 3 2 0).val
  then some "\"mulle_thread is too old\""
  else none

/-- `#if MULLE_VARARG_VERSION < ((0 << 20) | (5 << 8) | 0)`: the `#error` given, if any. -/
def mulle_vararg_version_check (MULLE_VARARG_VERSION : CIntMax) : Option String :=
  if MULLE_VARARG_VERSION.val < (version_constant 0 5 0).val
  then some "\"mulle_vararg is too old\""
  else none

/-- The version `(major, minor, patch)` is older than `(major₀, minor₀, patch₀)` in the
lexicographic order. -/
def lexicographically_older (major minor patch major₀ minor₀ patch₀ : Nat) : Prop :=
  major < major₀ ∨ (major = major₀ ∧ (minor < minor₀ ∨ (minor = minor₀ ∧ patch < patch₀)))

instance (major minor patch major₀ minor₀ patch₀ : Nat) :
    Decidable (lexicographically_older major minor patch major₀ minor₀ patch₀) := by
  unfold lexicographically_older
  infer_instance

/-- A configuration of mulle-clang for the default universe with tagged pointers and fast
calls. -/
def default_universe_configuration : BuildConfiguration :=
  { __MULLE_OBJC_TPS__ := true, __MULLE_OBJC_NO_TPS__ := false
    __MULLE_OBJC_FCS__ := true, __MULLE_OBJC_NO_FCS__ := false
    __MULLE_OBJC_UNIVERSEID__ := none, __MULLE_OBJC_UNIVERSENAME__ := none }

/-! ## Lemmas on the conversions -/

theorem pointer_of_int_emod (w : Nat) (hw : 32 ≤ w) (v : Int) :
    ((pointer_of_int w v : Nat) : Int) % 4294967296 = v % 4294967296 := by
  unfold pointer_of_int
  have hpos : (0 : Int) < ((2 ^ w : Nat) : Int) := by positivity
  have hnn : 0 ≤ v % ((2 ^ w : Nat) : Int) := Int.emod_nonneg _ (ne_of_gt hpos)
  rw [Int.toNat_of_nonneg hnn]
  have hdvd : (4294967296 : Int) ∣ ((2 ^ w : Nat) : Int) := by
    obtain ⟨k, rfl⟩ := Nat.exists_eq_add_of_le hw
    refine ⟨((2 ^ k : Nat) : Int), ?_⟩
    rw [pow_add]
    push_cast
    norm_num
  exact Int.emod_emod_of_dvd v hdvd

theorem get_version_in_state (u : _mulle_objc_universe) (w : Nat) (hw : 32 ≤ w)
    (s : LifecycleState) :
    ((_mulle_objc_universe_get_version (u.in_state w s) : Nat) : Int)
      = s.encode % 4294967296 := by
  have h := pointer_of_int_emod w hw s.encode
  simp only [_mulle_objc_universe_get_version, uint32_of_uintptr,
    _mulle_objc_universe.in_state]
  omega

theorem int32_of_uint32_unique (x : Nat) (hx : x < 4294967296) (s : Int)
    (hlo : -2147483648 ≤ s) (hhi : s < 2147483648)
    (hs : (s - (x : Int)) % 4294967296 = 0) : int32_of_uint32 x = s := by
  unfold int32_of_uint32
  split <;> omega

theorem get_version_lt (u : _mulle_objc_universe) :
    _mulle_objc_universe_get_version u < 4294967296 := by
  unfold _mulle_objc_universe_get_version uint32_of_uintptr
  omega

theorem uint32_of_int_initializing :
    uint32_of_int mulle_objc_universe_is_initializing = 4294967294 := by decide

theorem uint32_of_int_deinitializing :
    uint32_of_int mulle_objc_universe_is_deinitializing = 4294967295 := by decide

theorem version_bits_eq (major minor patch : Nat) (hminor : minor < 4096)
    (hpatch : patch < 256) :
    ((major <<< 20) ||| (minor <<< 8)) ||| patch
      = major * 1048576 + minor * 256 + patch := by
  rw [Nat.shiftLeft_eq, Nat.shiftLeft_eq]
  have h1 : minor * 2 ^ 8 < 2 ^ 20 := by omega
  have h2 : patch < 2 ^ 8 := by omega
  have e1 : major * 2 ^ 20 ||| minor * 2 ^ 8 = 2 ^ 20 * major + minor * 2 ^ 8 := by
    rw [Nat.mul_comm major, ← Nat.mul_add_lt_is_or h1]
  have e2 : 2 ^ 20 * major + minor * 2 ^ 8 = 2 ^ 8 * (2 ^ 12 * major + minor) := by omega
  rw [e1, e2, ← Nat.mul_add_lt_is_or h2]
  omega

theorem intmax_of_bits_val (x : Nat) (hx : x < 9223372036854775808) :
    (intmax_of_bits x).val = (x : Int) := by
  unfold intmax_of_bits
  simp only
  split <;> omega

theorem version_constant_val (major minor patch : Nat) (hmajor : major < 8796093022208)
    (hminor : minor < 4096) (hpatch : patch < 256) :
    (version_constant major minor patch).val
      = (major : Int) * 1048576 + (minor : Int) * 256 + (patch : Int) := by
  unfold version_constant
  rw [version_bits_eq major minor patch hminor hpatch, intmax_of_bits_val _ (by omega)]
  push_cast
  rfl

theorem version_constant_lt_iff (major minor patch major₀ minor₀ patch₀ : Nat)
    (hmajor : major < 8796093022208) (hminor : minor < 4096) (hpatch : patch < 256)
    (hmajor₀ : major₀ < 8796093022208) (hminor₀ : minor₀ < 4096) (hpatch₀ : patch₀ < 256) :
    (version_constant major minor patch).val < (version_constant major₀ minor₀ patch₀).val
      ↔ lexicographically_older major minor patch major₀ minor₀ patch₀ := by
  rw [version_constant_val major minor patch hmajor hminor hpatch,
    version_constant_val major₀ minor₀ patch₀ hmajor₀ hminor₀ hpatch₀]
  unfold lexicographically_older
  omega

/-! ## The lifecycle encoding (C1) -/

/-- C1, as stated, fails: with a 64-bit pointer, the state `Ready(2 ^ 31)`, whose epoch is an
unsigned 32-bit number, is not reported initialized; `Ready(0xFFFFFFFD)` is reported
uninitialized and `Ready(0xFFFFFFFE)` is reported transitioning. -/
theorem ready_epoch_from_two_pow_31_misreported :
    (2147483648 : Nat) < 4294967296 ∧
    _mulle_objc_universe_is_initialized
      (zero_universe.in_state 64 (.Ready 2147483648)) = 0 ∧
    (4294967293 : Nat) < 4294967296 ∧
    _mulle_objc_universe_is_uninitialized
      (zero_universe.in_state 64 (.Ready 4294967293)) = 1 ∧
    (4294967294 : Nat) < 4294967296 ∧
    _mulle_objc_universe_is_transitioning
      (zero_universe.in_state 64 (.Ready 4294967294)) = 1 := by
  decide

/-- C1, amended: on every platform whose pointers have at least 32 bits, encoding
Uninitialized, Initializing and Deinitializing as -3, -2 and -1 and Ready(e) as e, for every
epoch e below 2 ^ 31 (a non-negative signed 32-bit number), the three predicates recover the
state: is_uninitialized holds only for Uninitialized, is_transitioning only for Initializing
and Deinitializing, is_initialized for Ready(e) and for no other state. Each predicate
returns 1 when it holds and 0 when it does not. -/
theorem lifecycle_encoding_faithful (u : _mulle_objc_universe) (w : Nat) (hw : 32 ≤ w)
    (s : LifecycleState) (hs : ∀ e, s = .Ready e → e < 2147483648) :
    (_mulle_objc_universe_is_uninitialized (u.in_state w s) = 1 ↔ s = .Uninitialized) ∧
    (_mulle_objc_universe_is_uninitialized (u.in_state w s) = 0 ↔ s ≠ .Uninitialized) ∧
    (_mulle_objc_universe_is_transitioning (u.in_state w s) = 1
      ↔ s = .Initializing ∨ s = .Deinitializing) ∧
    (_mulle_objc_universe_is_transitioning (u.in_state w s) = 0
      ↔ ¬ (s = .Initializing ∨ s = .Deinitializing)) ∧
    (_mulle_objc_universe_is_initialized (u.in_state w s) = 1 ↔ ∃ e, s = .Ready e) ∧
    (_mulle_objc_universe_is_initialized (u.in_state w s) = 0 ↔ ¬ ∃ e, s = .Ready e) := by
  have hv := get_version_in_state u w hw s
  have hlt := get_version_lt (u.in_state w s)
  have h1 := uint32_of_int_initializing
  have h2 := uint32_of_int_deinitializing
  unfold _mulle_objc_universe_is_uninitialized _mulle_objc_universe_is_transitioning
    _mulle_objc_universe_is_initialized int32_of_uint32
  rw [h1, h2]
  generalize _mulle_objc_universe_get_version (u.in_state w s) = x at hv hlt
  cases s with
  | Uninitialized =>
    simp only [LifecycleState.encode, mulle_objc_universe_is_uninitialized] at hv ⊢
    have hx : x = 4294967293 := by omega
    subst hx
    simp
  | Initializing =>
    simp only [LifecycleState.encode, mulle_objc_universe_is_initializing,
      mulle_objc_universe_is_uninitialized] at hv ⊢
    have hx : x = 4294967294 := by omega
    subst hx
    simp
  | Deinitializing =>
    simp only [LifecycleState.encode, mulle_objc_universe_is_deinitializing,
      mulle_objc_universe_is_uninitialized] at hv ⊢
    have hx : x = 4294967295 := by omega
    subst hx
    simp
  | Ready e =>
    have he := hs e rfl
    simp only [LifecycleState.encode, mulle_objc_universe_is_uninitialized] at hv ⊢
    have hx : x = e := by omega
    subst hx
    have hne1 : x ≠ 4294967294 := by omega
    have hne2 : x ≠ 4294967295 := by omega
    simp only [if_pos he, hne1, hne2, if_false]
    have hne3 : ((x : Nat) : Int) ≠ -3 := by omega
    have hge : ((x : Nat) : Int) ≥ 0 := by omega
    simp [hne3, hge]

/-- Witness of C1 amended: a 64-bit platform and the state Ready(7). -/
theorem lifecycle_encoding_faithful_witness :
    (_mulle_objc_universe_is_uninitialized (zero_universe.in_state 64 (.Ready 7)) = 1
      ↔ LifecycleState.Ready 7 = .Uninitialized) ∧
    (_mulle_objc_universe_is_uninitialized (zero_universe.in_state 64 (.Ready 7)) = 0
      ↔ LifecycleState.Ready 7 ≠ .Uninitialized) ∧
    (_mulle_objc_universe_is_transitioning (zero_universe.in_state 64 (.Ready 7)) = 1
      ↔ LifecycleState.Ready 7 = .Initializing ∨ LifecycleState.Ready 7 = .Deinitializing) ∧
    (_mulle_objc_universe_is_transitioning (zero_universe.in_state 64 (.Ready 7)) = 0
      ↔ ¬ (LifecycleState.Ready 7 = .Initializing
          ∨ LifecycleState.Ready 7 = .Deinitializing)) ∧
    (_mulle_objc_universe_is_initialized (zero_universe.in_state 64 (.Ready 7)) = 1
      ↔ ∃ e, LifecycleState.Ready 7 = .Ready e) ∧
    (_mulle_objc_universe_is_initialized (zero_universe.in_state 64 (.Ready 7)) = 0
      ↔ ¬ ∃ e, LifecycleState.Ready 7 = .Ready e) :=
  lifecycle_encoding_faithful zero_universe 64 (by decide) (.Ready 7)
    (fun e h => by
      have h7 : e = 7 := by cases h; rfl
      omega)

/-! ## The three lifecycle predicates (C2, C3, C4)

In each theorem `s` is the version read as a signed 32-bit integer: the one integer of
the range `-2 ^ 31 ≤ s < 2 ^ 31` congruent to the `uint32_t` version modulo `2 ^ 32`. -/

/-- C2: for every universe, `_mulle_objc_universe_is_initialized` returns true (1) if and
only if the version, read as a signed 32-bit integer `s`, is non-negative, and 0 otherwise;
the cast `(int32_t)` of the code computes that `s`. In particular it returns 0 when the
version is the Uninitialized (-3), Initializing (-2) or Deinitializing (-1) sentinel. -/
theorem is_initialized_iff_version_nonneg (u : _mulle_objc_universe) (s : Int)
    (hlo : -2147483648 ≤ s) (hhi : s < 2147483648)
    (hs : (s - (_mulle_objc_universe_get_version u : Int)) % 4294967296 = 0) :
    int32_of_uint32 (_mulle_objc_universe_get_version u) = s ∧
    (_mulle_objc_universe_is_initialized u = 1 ↔ 0 ≤ s) ∧
    (_mulle_objc_universe_is_initialized u = 0 ↔ s < 0) ∧
    (s = mulle_objc_universe_is_uninitialized ∨ s = mulle_objc_universe_is_initializing
        ∨ s = mulle_objc_universe_is_deinitializing →
      _mulle_objc_universe_is_initialized u = 0) := by
  have hc := int32_of_uint32_unique _ (get_version_lt u) s hlo hhi hs
  unfold _mulle_objc_universe_is_initialized
  rw [hc]
  simp only [mulle_objc_universe_is_uninitialized, mulle_objc_universe_is_initializing,
    mulle_objc_universe_is_deinitializing]
  refine ⟨trivial, ?_, ?_, ?_⟩
  · split <;> constructor <;> intro h <;> omega
  · split <;> constructor <;> intro h <;> omega
  · intro h
    split <;> omega

/-- Witness of C2: a universe on a 64-bit platform in state Uninitialized, whose version
reads -3. -/
theorem is_initialized_iff_version_nonneg_witness :
    int32_of_uint32 (_mulle_objc_universe_get_version
      (zero_universe.in_state 64 .Uninitialized)) = -3 ∧
    (_mulle_objc_universe_is_initialized (zero_universe.in_state 64 .Uninitialized) = 1
      ↔ (0 : Int) ≤ -3) ∧
    (_mulle_objc_universe_is_initialized (zero_universe.in_state 64 .Uninitialized) = 0
      ↔ (-3 : Int) < 0) ∧
    ((-3 : Int) = mulle_objc_universe_is_uninitialized
        ∨ (-3 : Int) = mulle_objc_universe_is_initializing
        ∨ (-3 : Int) = mulle_objc_universe_is_deinitializing →
      _mulle_objc_universe_is_initialized (zero_universe.in_state 64 .Uninitialized) = 0) :=
  is_initialized_iff_version_nonneg (zero_universe.in_state 64 .Uninitialized) (-3)
    (by decide) (by decide) (by decide)

/-- C3: for every universe, `_mulle_objc_universe_is_transitioning` returns 1 if and only if
the version equals the initializing sentinel (-2) or the deinitializing sentinel (-1), and 0
otherwise. The `switch` compares the unsigned 32-bit version against the two labels
converted to unsigned, which are 0xFFFFFFFE and 0xFFFFFFFF. -/
theorem is_transitioning_iff_version_sentinel (u : _mulle_objc_universe) (s : Int)
    (hlo : -2147483648 ≤ s) (hhi : s < 2147483648)
    (hs : (s - (_mulle_objc_universe_get_version u : Int)) % 4294967296 = 0) :
    (_mulle_objc_universe_is_transitioning u = 1
      ↔ s = mulle_objc_universe_is_initializing
        ∨ s = mulle_objc_universe_is_deinitializing) ∧
    (_mulle_objc_universe_is_transitioning u = 0
      ↔ ¬ (s = mulle_objc_universe_is_initializing
        ∨ s = mulle_objc_universe_is_deinitializing)) ∧
    uint32_of_int mulle_objc_universe_is_initializing = 0xFFFFFFFE ∧
    uint32_of_int mulle_objc_universe_is_deinitializing = 0xFFFFFFFF ∧
    (_mulle_objc_universe_is_transitioning u = 1
      ↔ _mulle_objc_universe_get_version u = 0xFFFFFFFE
        ∨ _mulle_objc_universe_get_version u = 0xFFFFFFFF) := by
  have hlt := get_version_lt u
  have h1 := uint32_of_int_initializing
  have h2 := uint32_of_int_deinitializing
  unfold _mulle_objc_universe_is_transitioning
  rw [h1, h2]
  simp only [mulle_objc_universe_is_initializing, mulle_objc_universe_is_deinitializing]
  generalize _mulle_objc_universe_get_version u = x at hs hlt
  refine ⟨?_, ?_, trivial, trivial, ?_⟩
  · split_ifs <;> constructor <;> intro h <;> omega
  · split_ifs <;> constructor <;> intro h <;> omega
  · split_ifs <;> constructor <;> intro h <;> omega

/-- Witness of C3: a universe on a 64-bit platform in state Deinitializing, whose version
reads -1. -/
theorem is_transitioning_iff_version_sentinel_witness :
    (_mulle_objc_universe_is_transitioning (zero_universe.in_state 64 .Deinitializing) = 1
      ↔ (-1 : Int) = mulle_objc_universe_is_initializing
        ∨ (-1 : Int) = mulle_objc_universe_is_deinitializing) ∧
    (_mulle_objc_universe_is_transitioning (zero_universe.in_state 64 .Deinitializing) = 0
      ↔ ¬ ((-1 : Int) = mulle_objc_universe_is_initializing
        ∨ (-1 : Int) = mulle_objc_universe_is_deinitializing)) ∧
    uint32_of_int mulle_objc_universe_is_initializing = 0xFFFFFFFE ∧
    uint32_of_int mulle_objc_universe_is_deinitializing = 0xFFFFFFFF ∧
    (_mulle_objc_universe_is_transitioning (zero_universe.in_state 64 .Deinitializing) = 1
      ↔ _mulle_objc_universe_get_version (zero_universe.in_state 64 .Deinitializing)
          = 0xFFFFFFFE
        ∨ _mulle_objc_universe_get_version (zero_universe.in_state 64 .Deinitializing)
          = 0xFFFFFFFF) :=
  is_transitioning_iff_version_sentinel (zero_universe.in_state 64 .Deinitializing) (-1)
    (by decide) (by decide) (by decide)

/-- C4: for every universe, `_mulle_objc_universe_is_uninitialized` returns true (1) if and
only if the version, read as a signed 32-bit integer `s`, equals the uninitialized sentinel
-3, and 0 otherwise; it is 0 for both transition sentinels and for every Ready
(non-negative) version. -/
theorem is_uninitialized_iff_version_sentinel (u : _mulle_objc_universe) (s : Int)
    (hlo : -2147483648 ≤ s) (hhi : s < 2147483648)
    (hs : (s - (_mulle_objc_universe_get_version u : Int)) % 4294967296 = 0) :
    (_mulle_objc_universe_is_uninitialized u = 1
      ↔ s = mulle_objc_universe_is_uninitialized) ∧
    (_mulle_objc_universe_is_uninitialized u = 0
      ↔ s ≠ mulle_objc_universe_is_uninitialized) ∧
    mulle_objc_universe_is_uninitialized = -3 ∧
    (s = mulle_objc_universe_is_initializing ∨ s = mulle_objc_universe_is_deinitializing
        ∨ 0 ≤ s →
      _mulle_objc_universe_is_uninitialized u = 0) := by
  have hc := int32_of_uint32_unique _ (get_version_lt u) s hlo hhi hs
  unfold _mulle_objc_universe_is_uninitialized
  rw [hc]
  simp only [mulle_objc_universe_is_uninitialized, mulle_objc_universe_is_initializing,
    mulle_objc_universe_is_deinitializing]
  refine ⟨?_, ?_, trivial, ?_⟩
  · split <;> constructor <;> intro h <;> omega
  · split <;> constructor <;> intro h <;> omega
  · intro h
    split <;> omega

/-- Witness of C4: a universe on a 32-bit platform in state Ready(12), whose version
reads 12. -/
theorem is_uninitialized_iff_version_sentinel_witness :
    (_mulle_objc_universe_is_uninitialized (zero_universe.in_state 32 (.Ready 12)) = 1
      ↔ (12 : Int) = mulle_objc_universe_is_uninitialized) ∧
    (_mulle_objc_universe_is_uninitialized (zero_universe.in_state 32 (.Ready 12)) = 0
      ↔ (12 : Int) ≠ mulle_objc_universe_is_uninitialized) ∧
    mulle_objc_universe_is_uninitialized = -3 ∧
    ((12 : Int) = mulle_objc_universe_is_initializing
        ∨ (12 : Int) = mulle_objc_universe_is_deinitializing ∨ (0 : Int) ≤ 12 →
      _mulle_objc_universe_is_uninitialized (zero_universe.in_state 32 (.Ready 12)) = 0) :=
  is_uninitialized_iff_version_sentinel (zero_universe.in_state 32 (.Ready 12)) 12
    (by decide) (by decide) (by decide)

/-! ## Object-level lookups (C5) -/

/-- C5: for every object `obj` and method id `m`, each object-level lookup is the
corresponding class-level lookup applied to the class `_mulle_objc_object_get_isa( obj)`
(result and state after the call alike), and the object is consulted through the class-of
operation only: a second object `obj₂` of the same class resolves `m` to the same
result with each of the four lookups. -/
theorem object_lookup_is_class_lookup_of_isa {σ Obj Cls Imp Meth : Type}
    (rt : ClassFunctions σ Obj Cls Imp Meth) (st : σ) (obj obj₂ : Obj) (m : Nat)
    (hisa : rt._mulle_objc_object_get_isa st obj = rt._mulle_objc_object_get_isa st obj₂) :
    (_mulle_objc_object_lookup_cached_implementation rt st obj m
      = rt._mulle_objc_class_lookup_cached_methodimplementation st
          (rt._mulle_objc_object_get_isa st obj) m ∧
     _mulle_objc_object_lookup_implementation rt st obj m
      = rt._mulle_objc_class_lookup_methodimplementation st
          (rt._mulle_objc_object_get_isa st obj) m ∧
     _mulle_objc_object_lookup_implementation_no_forward rt st obj m
      = rt._mulle_objc_class_lookup_methodimplementation_no_forward st
          (rt._mulle_objc_object_get_isa st obj) m ∧
     _mulle_objc_object_lookup_method rt st obj m
      = rt.mulle_objc_class_search_method st (rt._mulle_objc_object_get_isa st obj) m) ∧
    (_mulle_objc_object_lookup_cached_implementation rt st obj m
      = _mulle_objc_object_lookup_cached_implementation rt st obj₂ m ∧
     _mulle_objc_object_lookup_implementation rt st obj m
      = _mulle_objc_object_lookup_implementation rt st obj₂ m ∧
     _mulle_objc_object_lookup_implementation_no_forward rt st obj m
      = _mulle_objc_object_lookup_implementation_no_forward rt st obj₂ m ∧
     _mulle_objc_object_lookup_method rt st obj m
      = _mulle_objc_object_lookup_method rt st obj₂ m) := by
  refine ⟨⟨rfl, rfl, rfl, rfl⟩, ?_, ?_, ?_, ?_⟩
  · simp only [_mulle_objc_object_lookup_cached_implementation, hisa]
  · simp only [_mulle_objc_object_lookup_implementation, hisa]
  · simp only [_mulle_objc_object_lookup_implementation_no_forward, hisa]
  · simp only [_mulle_objc_object_lookup_method, hisa]

/-- Witness of C5: in the sample runtime the objects 3 and 11 have the same class 3; with
two lookups counted so far, method id 1 resolves alike for both. -/
theorem object_lookup_is_class_lookup_of_isa_witness :
    sample_class_functions._mulle_objc_object_get_isa 2 3
      = sample_class_functions._mulle_objc_object_get_isa 2 11 ∧
    _mulle_objc_object_lookup_cached_implementation sample_class_functions 2 3 1 = (301, 2) ∧
    _mulle_objc_object_lookup_implementation sample_class_functions 2 3 1
      = _mulle_objc_object_lookup_implementation sample_class_functions 2 11 1 ∧
    _mulle_objc_object_lookup_method sample_class_functions 2 3 1
      = _mulle_objc_object_lookup_method sample_class_functions 2 11 1 :=
  have h := object_lookup_is_class_lookup_of_isa sample_class_functions 2 3 11 1 (by decide)
  ⟨by decide, by decide, h.2.2.1, h.2.2.2.2⟩

/-! ## The name of a universe (C6) -/

/-- C6: `mulle_objc_universe_get_name` never returns a null string: for the NULL universe it
returns "NULL", for a universe whose universename is absent it returns "DEFAULT", and for
every other universe it returns the universename unchanged. -/
theorem universe_get_name_total (ou : Option _mulle_objc_universe)
    (u : _mulle_objc_universe) (name : String) :
    mulle_objc_universe_get_name ou ≠ none ∧
    mulle_objc_universe_get_name none = some "NULL" ∧
    mulle_objc_universe_get_name (some { u with universename := none }) = some "DEFAULT" ∧
    mulle_objc_universe_get_name (some { u with universename := some name }) = some name ∧
    mulle_objc_universe_get_name (some u) = some (u.universename.getD "DEFAULT") := by
  refine ⟨?_, rfl, rfl, rfl, ?_⟩
  · cases ou with
    | none => simp [mulle_objc_universe_get_name]
    | some v =>
      cases hn : v.universename <;> simp [mulle_objc_universe_get_name, hn]
  · cases hn : u.universename <;> simp [mulle_objc_universe_get_name, hn]

/-! ## The configuration (C8, C9) -/

/-- C8: for every configuration value, `max_optlevel` and `min_optlevel` lie in the range 0
to 7: they are 3-bit unsigned fields, so assigning any unsigned value `v` to either one
stores `v mod 8` and leaves every other configuration field unchanged. -/
theorem optlevel_fields_three_bits (c : _mulle_objc_universeconfig) (v : Nat) :
    (c.max_optlevel.val ≤ 7 ∧ c.min_optlevel.val ≤ 7) ∧
    ((c.assign_max_optlevel v).max_optlevel.val = v % 8 ∧
     (c.assign_max_optlevel v).forget_strings = c.forget_strings ∧
     (c.assign_max_optlevel v).ignore_ivarhash_mismatch = c.ignore_ivarhash_mismatch ∧
     (c.assign_max_optlevel v).min_optlevel = c.min_optlevel ∧
     (c.assign_max_optlevel v).no_tagged_pointer = c.no_tagged_pointer ∧
     (c.assign_max_optlevel v).no_fast_call = c.no_fast_call ∧
     (c.assign_max_optlevel v).repopulate_caches = c.repopulate_caches ∧
     (c.assign_max_optlevel v).cache_fillrate = c.cache_fillrate) ∧
    ((c.assign_min_optlevel v).min_optlevel.val = v % 8 ∧
     (c.assign_min_optlevel v).forget_strings = c.forget_strings ∧
     (c.assign_min_optlevel v).ignore_ivarhash_mismatch = c.ignore_ivarhash_mismatch ∧
     (c.assign_min_optlevel v).max_optlevel = c.max_optlevel ∧
     (c.assign_min_optlevel v).no_tagged_pointer = c.no_tagged_pointer ∧
     (c.assign_min_optlevel v).no_fast_call = c.no_fast_call ∧
     (c.assign_min_optlevel v).repopulate_caches = c.repopulate_caches ∧
     (c.assign_min_optlevel v).cache_fillrate = c.cache_fillrate) := by
  have h1 := c.max_optlevel.isLt
  have h2 := c.min_optlevel.isLt
  refine ⟨⟨by omega, by omega⟩, ⟨rfl, rfl, rfl, rfl, rfl, rfl, rfl, rfl⟩,
    ⟨rfl, rfl, rfl, rfl, rfl, rfl, rfl, rfl⟩⟩

/-- C9: for every universe configuration value, as the construction yields it,
`cache_fillrate` is an integer between 0 and 90 inclusive, and it is the default 0 when no
fill rate was requested; the construction yields a configuration exactly when the
requested fill rate, if any, lies in 0 to 90, and it keeps the other options. -/
theorem constructed_cache_fillrate_in_0_90 (options c : _mulle_objc_universeconfig)
    (requested : Option Int) (hc : universeconfig_construct options requested = some c) :
    ((0 : Int) ≤ c.cache_fillrate.val ∧ c.cache_fillrate.val ≤ 90) ∧
    (requested = none → c.cache_fillrate.val = 0) ∧
    (∀ rate, requested = some rate → c.cache_fillrate.val = rate) ∧
    (∀ rate : Int, universeconfig_construct options (some rate) ≠ none
      ↔ 0 ≤ rate ∧ rate ≤ 90) ∧
    universeconfig_construct options none ≠ none ∧
    (c.forget_strings = options.forget_strings ∧
     c.ignore_ivarhash_mismatch = options.ignore_ivarhash_mismatch ∧
     c.max_optlevel = options.max_optlevel ∧
     c.min_optlevel = options.min_optlevel ∧
     c.no_tagged_pointer = options.no_tagged_pointer ∧
     c.no_fast_call = options.no_fast_call ∧
     c.repopulate_caches = options.repopulate_caches) := by
  have htotal : ∀ rate : Int, universeconfig_construct options (some rate) ≠ none
      ↔ 0 ≤ rate ∧ rate ≤ 90 := by
    intro rate
    unfold universeconfig_construct
    by_cases h : 0 ≤ rate ∧ rate ≤ 90
    · simp [h]
    · simp [h]
  have hnone : universeconfig_construct options none ≠ none := by
    simp [universeconfig_construct]
  cases requested with
  | none =>
    simp only [universeconfig_construct, Option.some.injEq] at hc
    subst hc
    exact ⟨⟨(by show (0 : Int) ≤ 0; omega), (by show (0 : Int) ≤ 90; omega)⟩, fun _ => rfl,
      fun rate h => (by cases h), htotal, hnone,
      rfl, rfl, rfl, rfl, rfl, rfl, rfl⟩
  | some rate =>
    unfold universeconfig_construct at hc
    by_cases h : 0 ≤ rate ∧ rate ≤ 90
    · simp only [h, and_self, dite_true, Option.some.injEq] at hc
      subst hc
      refine ⟨⟨h.1, h.2⟩, fun h0 => (by cases h0), fun r hr => ?_, htotal, hnone,
        rfl, rfl, rfl, rfl, rfl, rfl, rfl⟩
      cases hr
      rfl
    · simp [h] at hc

/-- Witness of C9: a requested fill rate of 75 on the zero-filled options gives a
configuration with fill rate 75; a requested fill rate of 91 gives none. -/
theorem constructed_cache_fillrate_in_0_90_witness :
    universeconfig_construct zero_config (some 75)
      = some { zero_config with cache_fillrate := ⟨75, by decide⟩ } ∧
    ((0 : Int) ≤ 75 ∧ (75 : Int) ≤ 90) ∧
    universeconfig_construct zero_config (some 91) = none :=
  have h := constructed_cache_fillrate_in_0_90 zero_config
    { zero_config with cache_fillrate := ⟨75, by decide⟩ } (some 75) (by decide)
  ⟨by decide, h.1, by decide⟩

/-! ## Debug flags and the accessors (C10) -/

/-- C10: the debug (trace, warn, print) flags never affect the universe accessors: for any
two universes that differ only in their debug flags, `_mulle_objc_universe_get_version`,
`_mulle_objc_universe_is_initialized`, `_mulle_objc_universe_is_uninitialized`,
`_mulle_objc_universe_is_transitioning`, `mulle_objc_universe_get_name` and
`_mulle_objc_universe_get_universeid` return identical results. -/
theorem accessors_ignore_debug (u₁ u₂ : _mulle_objc_universe)
    (h : differ_only_in_debug u₁ u₂) :
    _mulle_objc_universe_get_version u₁ = _mulle_objc_universe_get_version u₂ ∧
    _mulle_objc_universe_is_initialized u₁ = _mulle_objc_universe_is_initialized u₂ ∧
    _mulle_objc_universe_is_uninitialized u₁ = _mulle_objc_universe_is_uninitialized u₂ ∧
    _mulle_objc_universe_is_transitioning u₁ = _mulle_objc_universe_is_transitioning u₂ ∧
    mulle_objc_universe_get_name (some u₁) = mulle_objc_universe_get_name (some u₂) ∧
    _mulle_objc_universe_get_universeid u₁ = _mulle_objc_universe_get_universeid u₂ := by
  obtain ⟨hv, -, hid, hname, -⟩ := h
  have hgv : _mulle_objc_universe_get_version u₁ = _mulle_objc_universe_get_version u₂ := by
    simp only [_mulle_objc_universe_get_version, hv]
  refine ⟨hgv, ?_, ?_, ?_, ?_, ?_⟩
  · simp only [_mulle_objc_universe_is_initialized, hgv]
  · simp only [_mulle_objc_universe_is_uninitialized, hgv]
  · simp only [_mulle_objc_universe_is_transitioning, hgv]
  · simp only [mulle_objc_universe_get_name, hname]
  · simp only [_mulle_objc_universe_get_universeid, hid]

/-- Witness of C10: the sample universe and the same universe with debug flags set. -/
theorem accessors_ignore_debug_witness :
    sample_universe.debug ≠ ({ sample_universe with debug := sample_debug }).debug ∧
    _mulle_objc_universe_get_version sample_universe
      = _mulle_objc_universe_get_version { sample_universe with debug := sample_debug } ∧
    mulle_objc_universe_get_name (some sample_universe)
      = mulle_objc_universe_get_name (some { sample_universe with debug := sample_debug }) :=
  have h := accessors_ignore_debug sample_universe
    { sample_universe with debug := sample_debug } (by decide)
  ⟨by decide, h.1, h.2.2.2.2.1⟩

/-! ## The configuration checks of the umbrella header (C11) -/

/-- C11: the umbrella header accepts a build configuration if and only if exactly one of
`__MULLE_OBJC_TPS__` / `__MULLE_OBJC_NO_TPS__` is defined, exactly one of
`__MULLE_OBJC_FCS__` / `__MULLE_OBJC_NO_FCS__` is defined, and TPS is defined only with
universe id 0, that is with `__MULLE_OBJC_UNIVERSEID__` undefined or defined as 0: an
undefined universe id defaults to 0 (a defined one keeps its value) and an undefined
universe name to `NULL`. Every other combination is rejected with an `#error`; the error
`"TPS can only be used in the default universe not in " #__MULLE_OBJC_UNIVERSENAME__` is
given exactly when TPS is defined with a universe id other than 0, and it is the only
error exactly when the TPS and FCS macros are consistent besides. -/
theorem header_accepts_iff_configuration_consistent (b : BuildConfiguration)
    (id : CIntMax) (name : Option String) :
    (accepts_configuration b = true ↔
      ((b.__MULLE_OBJC_TPS__ = true ∧ b.__MULLE_OBJC_NO_TPS__ = false) ∨
        (b.__MULLE_OBJC_TPS__ = false ∧ b.__MULLE_OBJC_NO_TPS__ = true)) ∧
      ((b.__MULLE_OBJC_FCS__ = true ∧ b.__MULLE_OBJC_NO_FCS__ = false) ∨
        (b.__MULLE_OBJC_FCS__ = false ∧ b.__MULLE_OBJC_NO_FCS__ = true)) ∧
      (b.__MULLE_OBJC_TPS__ = false ∨ b.__MULLE_OBJC_UNIVERSEID__ = none
        ∨ b.__MULLE_OBJC_UNIVERSEID__.map Subtype.val = some 0)) ∧
    (accepts_configuration b = false ↔ ∃ text, text ∈ configuration_error_messages b) ∧
    ("\"TPS can only be used in the default universe not in \" #__MULLE_OBJC_UNIVERSENAME__"
        ∈ configuration_error_messages b ↔
      b.__MULLE_OBJC_TPS__ = true ∧ ¬ (b.__MULLE_OBJC_UNIVERSEID__ = none
        ∨ b.__MULLE_OBJC_UNIVERSEID__.map Subtype.val = some 0)) ∧
    (configuration_error_messages b =
        ["\"TPS can only be used in the default universe not in \" #__MULLE_OBJC_UNIVERSENAME__"]
      ↔ (b.__MULLE_OBJC_TPS__ = true ∧ b.__MULLE_OBJC_NO_TPS__ = false) ∧
        ((b.__MULLE_OBJC_FCS__ = true ∧ b.__MULLE_OBJC_NO_FCS__ = false) ∨
          (b.__MULLE_OBJC_FCS__ = false ∧ b.__MULLE_OBJC_NO_FCS__ = true)) ∧
        ¬ (b.__MULLE_OBJC_UNIVERSEID__ = none
          ∨ b.__MULLE_OBJC_UNIVERSEID__.map Subtype.val = some 0)) ∧
    ({ b with __MULLE_OBJC_UNIVERSEID__ := none }).universeid = 0 ∧
    ({ b with __MULLE_OBJC_UNIVERSEID__ := some id }).universeid = id.val ∧
    ({ b with __MULLE_OBJC_UNIVERSENAME__ := none }).universename = none ∧
    ({ b with __MULLE_OBJC_UNIVERSENAME__ := some name }).universename = name := by
  obtain ⟨tps, no_tps, fcs, no_fcs, uid, uname⟩ := b
  refine ⟨?_, ?_, ?_, ?_, rfl, rfl, rfl, rfl⟩
  · cases uid with
    | none =>
      cases tps <;> cases no_tps <;> cases fcs <;> cases no_fcs <;>
        simp [accepts_configuration, configuration_error_messages, configuration_errors,
          BuildConfiguration.universeid]
    | some i =>
      by_cases hi : i.val = 0 <;>
      cases tps <;> cases no_tps <;> cases fcs <;> cases no_fcs <;>
        simp [accepts_configuration, configuration_error_messages, configuration_errors,
          BuildConfiguration.universeid, hi]
  · unfold accepts_configuration
    cases hl : configuration_error_messages ⟨tps, no_tps, fcs, no_fcs, uid, uname⟩ with
    | nil => simp
    | cons e rest => exact ⟨fun _ => ⟨e, List.mem_cons_self e rest⟩, fun _ => rfl⟩
  · cases uid with
    | none =>
      cases tps <;> cases no_tps <;> cases fcs <;> cases no_fcs <;>
        simp [configuration_error_messages, configuration_errors,
          BuildConfiguration.universeid, ConfigurationError.message]
    | some i =>
      by_cases hi : i.val = 0 <;>
      cases tps <;> cases no_tps <;> cases fcs <;> cases no_fcs <;>
        simp [configuration_error_messages, configuration_errors,
          BuildConfiguration.universeid, ConfigurationError.message, hi]
  · cases uid with
    | none =>
      cases tps <;> cases no_tps <;> cases fcs <;> cases no_fcs <;>
        simp [configuration_error_messages, configuration_errors,
          BuildConfiguration.universeid, ConfigurationError.message]
    | some i =>
      by_cases hi : i.val = 0 <;>
      cases tps <;> cases no_tps <;> cases fcs <;> cases no_fcs <;>
        simp [configuration_error_messages, configuration_errors,
          BuildConfiguration.universeid, ConfigurationError.message, hi]

/-! ## The predicates on arbitrary versions (C12, C13) -/

/-- C12: for every stored version value, at most one of
`_mulle_objc_universe_is_initialized`, `_mulle_objc_universe_is_uninitialized` and
`_mulle_objc_universe_is_transitioning` returns true, and none of them returns true exactly
when the version read as a signed 32-bit integer `s` is below -3, which is when the
`uint32_t` version lies from 0x80000000 to 0xFFFFFFFC. -/
theorem lifecycle_predicates_exclusive (u : _mulle_objc_universe) (s : Int)
    (hlo : -2147483648 ≤ s) (hhi : s < 2147483648)
    (hs : (s - (_mulle_objc_universe_get_version u : Int)) % 4294967296 = 0) :
    ¬ (_mulle_objc_universe_is_initialized u ≠ 0
        ∧ _mulle_objc_universe_is_uninitialized u ≠ 0) ∧
    ¬ (_mulle_objc_universe_is_initialized u ≠ 0
        ∧ _mulle_objc_universe_is_transitioning u ≠ 0) ∧
    ¬ (_mulle_objc_universe_is_uninitialized u ≠ 0
        ∧ _mulle_objc_universe_is_transitioning u ≠ 0) ∧
    ((_mulle_objc_universe_is_initialized u = 0 ∧ _mulle_objc_universe_is_uninitialized u = 0
        ∧ _mulle_objc_universe_is_transitioning u = 0) ↔ s < -3) ∧
    ((_mulle_objc_universe_is_initialized u = 0 ∧ _mulle_objc_universe_is_uninitialized u = 0
        ∧ _mulle_objc_universe_is_transitioning u = 0) ↔
      2147483648 ≤ _mulle_objc_universe_get_version u
        ∧ _mulle_objc_universe_get_version u ≤ 4294967292) := by
  have hc := int32_of_uint32_unique _ (get_version_lt u) s hlo hhi hs
  have hlt := get_version_lt u
  have h1 := uint32_of_int_initializing
  have h2 := uint32_of_int_deinitializing
  unfold _mulle_objc_universe_is_initialized _mulle_objc_universe_is_uninitialized
    _mulle_objc_universe_is_transitioning
  rw [hc, h1, h2]
  simp only [mulle_objc_universe_is_uninitialized]
  generalize _mulle_objc_universe_get_version u = x at hs hlt
  refine ⟨?_, ?_, ?_, ?_, ?_⟩ <;> split_ifs <;> omega

/-- Witness of C12: a universe on a 64-bit platform whose stored version is the pointer
of -7; none of the three predicates holds of it. -/
theorem lifecycle_predicates_exclusive_witness :
    (_mulle_objc_universe_is_initialized
        { zero_universe with version := pointer_of_int 64 (-7) } = 0
      ∧ _mulle_objc_universe_is_uninitialized
        { zero_universe with version := pointer_of_int 64 (-7) } = 0
      ∧ _mulle_objc_universe_is_transitioning
        { zero_universe with version := pointer_of_int 64 (-7) } = 0) ∧
    (-7 : Int) < -3 :=
  have h := lifecycle_predicates_exclusive
    { zero_universe with version := pointer_of_int 64 (-7) } (-7)
    (by decide) (by decide) (by decide)
  ⟨h.2.2.2.1.mpr (by decide), by decide⟩

/-- C13: `_mulle_objc_universe_get_version` returns the stored pointer-width value reduced
modulo 2 ^ 32, so for two stored values that agree modulo 2 ^ 32 the version and the three
lifecycle predicates give identical results; a stored value `v` is reported initialized
exactly when `v mod 2 ^ 32 < 2 ^ 31`, so on a 64-bit platform a value with upper half `hi`
and lower half `lo` is reported initialized exactly when `lo < 2 ^ 31`, whatever `hi`. -/
theorem version_is_stored_value_mod_two_pow_32 (u₁ u₂ : _mulle_objc_universe)
    (hi lo : Nat) (h : u₁.version % 4294967296 = u₂.version % 4294967296)
    (hlo : lo < 4294967296) :
    _mulle_objc_universe_get_version u₁ = u₁.version % 4294967296 ∧
    _mulle_objc_universe_get_version u₁ = _mulle_objc_universe_get_version u₂ ∧
    _mulle_objc_universe_is_initialized u₁ = _mulle_objc_universe_is_initialized u₂ ∧
    _mulle_objc_universe_is_uninitialized u₁ = _mulle_objc_universe_is_uninitialized u₂ ∧
    _mulle_objc_universe_is_transitioning u₁ = _mulle_objc_universe_is_transitioning u₂ ∧
    (_mulle_objc_universe_is_initialized u₁ = 1 ↔ u₁.version % 4294967296 < 2147483648) ∧
    (_mulle_objc_universe_is_initialized u₁ = 0 ↔ 2147483648 ≤ u₁.version % 4294967296) ∧
    (_mulle_objc_universe_is_initialized { u₁ with version := hi * 4294967296 + lo } = 1
      ↔ lo < 2147483648) := by
  have hgv : _mulle_objc_universe_get_version u₁ = _mulle_objc_universe_get_version u₂ := by
    simp only [_mulle_objc_universe_get_version, uint32_of_uintptr, h]
  have hmod : (hi * 4294967296 + lo) % 4294967296 = lo := by omega
  refine ⟨rfl, hgv, ?_, ?_, ?_, ?_, ?_, ?_⟩
  · simp only [_mulle_objc_universe_is_initialized, hgv]
  · simp only [_mulle_objc_universe_is_uninitialized, hgv]
  · simp only [_mulle_objc_universe_is_transitioning, hgv]
  · simp only [_mulle_objc_universe_is_initialized, _mulle_objc_universe_get_version,
      uint32_of_uintptr, int32_of_uint32]
    split_ifs <;> constructor <;> intro _ <;> omega
  · simp only [_mulle_objc_universe_is_initialized, _mulle_objc_universe_get_version,
      uint32_of_uintptr, int32_of_uint32]
    split_ifs <;> constructor <;> intro _ <;> omega
  · simp only [_mulle_objc_universe_is_initialized, _mulle_objc_universe_get_version,
      uint32_of_uintptr, int32_of_uint32, hmod]
    split_ifs <;> constructor <;> intro _ <;> omega

/-- Witness of C13: the stored values 5 and 3 * 2 ^ 32 + 5 agree modulo 2 ^ 32 and are
both reported as version 5; the value 0xFFFFFFFF00000005 is reported initialized. -/
theorem version_is_stored_value_mod_two_pow_32_witness :
    sample_universe.version ≠ ({ sample_universe with version := 12884901893 }).version ∧
    _mulle_objc_universe_get_version sample_universe
      = _mulle_objc_universe_get_version { sample_universe with version := 12884901893 } ∧
    _mulle_objc_universe_get_version { sample_universe with version := 12884901893 } = 5 ∧
    _mulle_objc_universe_is_initialized
      { sample_universe with version := 4294967295 * 4294967296 + 5 } = 1 :=
  have h := version_is_stored_value_mod_two_pow_32 sample_universe
    { sample_universe with version := 12884901893 } 4294967295 5
    (by decide) (by decide)
  ⟨by decide, h.2.1, by decide, h.2.2.2.2.2.2.2.mpr (by decide)⟩

/-! ## The dependency version gates of the umbrella header (C14) -/

/-- C14, as stated, fails: the version with major 2 ^ 43, minor 0 and patch 0 is not
lexicographically older than 1.4.0, yet `(major << 20)` overflows `intmax_t`, the packed
value is -2 ^ 63, and the mulle_aba gate gives its `#error`. -/
theorem version_gate_rejects_major_two_pow_43 :
    (0 : Nat) < 4096 ∧ (0 : Nat) < 256 ∧
    (version_constant 8796093022208 0 0).val = -9223372036854775808 ∧
    mulle_aba_version_check (version_constant 8796093022208 0 0)
      = some "\"mulle_aba is too old\"" ∧
    ¬ lexicographically_older 8796093022208 0 0 1 4 0 := by
  decide

/-- C14, amended: each dependency version gate
`VERSION < ((major << 20) | (minor << 8) | patch)` rejects exactly the versions that are
lexicographically older than the required one, as long as the packed version fits
`intmax_t`: for every version packed as `(M << 20) | (m << 8) | p` with `M < 2 ^ 43`,
`m < 4096` and `p < 256`, the gate gives its `#error` if and only if `(M, m, p)` is
lexicographically older than the minimum (mulle_aba 1.4.0, mulle_allocator 4.0.0,
mulle_concurrent 1.3.0, mulle_thread 3.2.0, mulle_vararg 0.5.0). -/
theorem version_gates_reject_lexicographically_older (major minor patch : Nat)
    (hmajor : major < 8796093022208) (hminor : minor < 4096) (hpatch : patch < 256) :
    (mulle_aba_version_check (version_constant major minor patch) ≠ none
      ↔ lexicographically_older major minor patch 1 4 0) ∧
    (mulle_allocator_version_check (version_constant major minor patch) ≠ none
      ↔ lexicographically_older major minor patch 4 0 0) ∧
    (mulle_concurrent_version_check (version_constant major minor patch) ≠ none
      ↔ lexicographically_older major minor patch 1 3 0) ∧
    (mulle_thread_version_check (version_constant major minor patch) ≠ none
      ↔ lexicographically_older major minor patch 3 2 0) ∧
    (mulle_vararg_version_check (version_constant major minor patch) ≠ none
      ↔ lexicographically_older major minor patch 0 5 0) := by
  have key : ∀ major₀ minor₀ : Nat, major₀ < 8796093022208 → minor₀ < 4096 →
      ((version_constant major minor patch).val < (version_constant major₀ minor₀ 0).val
        ↔ lexicographically_older major minor patch major₀ minor₀ 0) :=
    fun major₀ minor₀ hM₀ hm₀ =>
      version_constant_lt_iff major minor patch major₀ minor₀ 0 hmajor hminor hpatch
        hM₀ hm₀ (by decide)
  refine ⟨?_, ?_, ?_, ?_, ?_⟩
  · rw [← key 1 4 (by decide) (by decide)]
    unfold mulle_aba_version_check
    split <;> simp_all
  · rw [← key 4 0 (by decide) (by decide)]
    unfold mulle_allocator_version_check
    split <;> simp_all
  · rw [← key 1 3 (by decide) (by decide)]
    unfold mulle_concurrent_version_check
    split <;> simp_all
  · rw [← key 3 2 (by decide) (by decide)]
    unfold mulle_thread_version_check
    split <;> simp_all
  · rw [← key 0 5 (by decide) (by decide)]
    unfold mulle_vararg_version_check
    split <;> simp_all

/-- Witness of C14 amended: version 1.3.255 is rejected by the mulle_aba gate (1.4.0) and
accepted by the mulle_concurrent gate (1.3.0). -/
theorem version_gates_reject_lexicographically_older_witness :
    (mulle_aba_version_check (version_constant 1 3 255) ≠ none
      ↔ lexicographically_older 1 3 255 1 4 0) ∧
    mulle_aba_version_check (version_constant 1 3 255) = some "\"mulle_aba is too old\"" ∧
    (mulle_concurrent_version_check (version_constant 1 3 255) ≠ none
      ↔ lexicographically_older 1 3 255 1 3 0) ∧
    mulle_concurrent_version_check (version_constant 1 3 255) = none :=
  have h := version_gates_reject_lexicographically_older 1 3 255
    (by decide) (by decide) (by decide)
  ⟨h.1, by decide, h.2.2.1, by decide⟩

end MulleObjc
